import Mathlib

/-!
Shallow embedding of the X-Plane airport writer (`XpAirportWriter`) of the
atools repository.  The stateful line interpreter `XpAirportWriter::write`
and its helpers are modelled as pure functions over an explicit state
record `Xp.WState`; SQL insert queries are modelled as bound-value records,
and an executed insert appends the bound record to an `emitted…` list.
Machine floats are modelled as rationals; Qt strings as `String`.
The embedding covers the rows, state fields and record fields that the
verified properties observe; the taxi, com, helipad, viewpoint, fuel-truck
and metadata binders, and DB-only fields (ids, lights, markings,
thresholds), are outside the verified properties and omitted.
-/

namespace Xp

/-- A geographic position (`atools::geo::Pos`): longitude and latitude in
degrees.  An invalid (default-constructed) `Pos` is modelled as `none` at
use sites (`Option Pos`). -/
structure Pos where
  lonx : ℚ
  laty : ℚ
deriving DecidableEq

/-- A geographic bounding rectangle (`atools::geo::Rect`).  An invalid
(default-constructed) rectangle is modelled as `none` (`Option Rect`). -/
structure Rect where
  west : ℚ
  north : ℚ
  east : ℚ
  south : ℚ
deriving DecidableEq

/-- Modelled from the spec: `Rect(Pos)`, the single-point rectangle (the
geometry helper classes of `geo/calculations.h` are not under `src/`). -/
def Rect.point (p : Pos) : Rect :=
  { west := p.lonx, north := p.laty, east := p.lonx, south := p.laty }

/-- Modelled from the spec: `Rect::getCenter`. -/
def Rect.getCenter (r : Rect) : Pos :=
  { lonx := (r.west + r.east) / 2, laty := (r.north + r.south) / 2 }

/-- Modelled from the spec: `Rect::inflate` widens the rectangle by the
given margins. -/
def Rect.inflate (r : Rect) (dx dy : ℚ) : Rect :=
  { west := r.west - dx, north := r.north + dy, east := r.east + dx, south := r.south - dy }

/-- Modelled from the spec: `Rect::contains` for a position. -/
def Rect.containsPos (r : Rect) (p : Pos) : Bool :=
  decide (r.west ≤ p.lonx) && decide (p.lonx ≤ r.east) &&
  decide (r.south ≤ p.laty) && decide (p.laty ≤ r.north)

/-- Modelled from the spec: `Rect::isPoint`, a degenerate single-point
rectangle. -/
def Rect.isPoint (r : Rect) : Bool :=
  decide (r.west = r.east) && decide (r.north = r.south)

/-- Modelled from the spec: `Rect::extend` — bounding-rectangle
accumulation over an optional (possibly still invalid) rectangle. -/
def extendRect (r : Option Rect) (p : Pos) : Option Rect :=
  match r with
  | none => some (Rect.point p)
  | some r =>
      some { west := min r.west p.lonx, north := max r.north p.laty,
             east := max r.east p.lonx, south := min r.south p.laty }

/-- Modelled from the spec: `Pos::POS_EPSILON_100M`, the fixed small margin
(~100 m in degrees) used when testing the datum against the bounding
rectangle.  The exact constant lives in a header that is not under `src/`;
no claim depends on its value. -/
def posEpsilon100M : ℚ := 9 / 10000

/-- Whether character list `s` starts with character list `p`. -/
def listStartsWith : List Char → List Char → Bool
  | _, [] => true
  | [], _ :: _ => false
  | a :: as, b :: bs => a == b && listStartsWith as bs

/-- Whether character list `s` contains character list `p` as a contiguous
substring (the semantics of `QString::contains`). -/
def listHasSub : List Char → List Char → Bool
  | [], p => listStartsWith [] p
  | c :: t, p => listStartsWith (c :: t) p || listHasSub t p

/-- `QString::contains` on strings (case-sensitive; callers lower-case
first where the source does). -/
def strHasSub (s pat : String) : Bool := listHasSub s.data pat.data

/-- `QString::startsWith` on strings. -/
def strStartsWith (s pat : String) : Bool := listStartsWith s.data pat.data

/-- `QString::toLower` on strings. -/
def strToLower (s : String) : String := String.mk (s.data.map Char.toLower)

/-- `QString::toUpper` on strings. -/
def strToUpper (s : String) : String := String.mk (s.data.map Char.toUpper)

/-- X-Plane surface codes (`atools::fs::xp::Surface`); the enumeration
constructors are those handled in `xpconstants.cpp`. -/
inductive Surface
  | unknown
  | transparent
  | asphalt
  | concrete
  | turfOrGrass
  | dryLakebed
  | dirt
  | gravel
  | water
  | snowOrIce
deriving DecidableEq

/-- `surfaceToDb` of `xpconstants.cpp`. -/
def surfaceToDb : Surface → String
  | .unknown => "UNKNOWN"
  | .transparent => "TR"
  | .asphalt => "A"
  | .concrete => "C"
  | .turfOrGrass => "G"
  | .dryLakebed => "D"
  | .dirt => "D"
  | .gravel => "GR"
  | .water => "W"
  | .snowOrIce => "SN"

/-- `isSurfaceHard` of `xpconstants.cpp`. -/
def isSurfaceHard (value : Surface) : Bool :=
  value == .unknown || value == .transparent || value == .asphalt || value == .concrete

/-- `isSurfaceSoft` of `xpconstants.cpp`. -/
def isSurfaceSoft (value : Surface) : Bool :=
  value == .turfOrGrass || value == .dryLakebed || value == .dirt || value == .gravel ||
  value == .snowOrIce

/-- `isSurfaceWater` of `xpconstants.cpp`. -/
def isSurfaceWater (value : Surface) : Bool :=
  value == .water

/-- Approach indicator kinds (`atools::fs::xp::ApproachIndicator`); the
constructors are the ones handled in `xpconstants.cpp`. -/
inductive ApproachIndicator
  | noApprIndicator
  | vasi
  | papi4L
  | papi4R
  | spaceShuttlePapi
  | triColorVasi
  | runwayGuard
deriving DecidableEq

/-- `approachIndicatorToDb` of `xpconstants.cpp`. -/
def approachIndicatorToDb : ApproachIndicator → String
  | .vasi => "VASI22"
  | .papi4L => "PAPI4"
  | .papi4R => "PAPI4"
  | .spaceShuttlePapi => "PAPI4"
  | .triColorVasi => "TRICOLOR"
  | .runwayGuard => "GUARD"
  | .noApprIndicator => ""

/-- `XpAirportWriter::compareGate`: returns 1, -1 or 0 ranking parking
gate codes ("GH" outranks everything, "GS" is outranked by everything,
other distinct codes tie). -/
def compareGate (gate1 gate2 : String) : Int :=
  if gate1 ≠ gate2 then
    if gate1 = "GH" then 1
    else if gate2 = "GH" then -1
    else if gate1 = "GS" then -1
    else if gate2 = "GS" then 1
    else 0
  else 0

/-- `XpAirportWriter::compareRamp`: the same ranking pattern with "RGAL"
highest and "RGAS" lowest. -/
def compareRamp (ramp1 ramp2 : String) : Int :=
  if ramp1 ≠ ramp2 then
    if ramp1 = "RGAL" then 1
    else if ramp2 = "RGAL" then -1
    else if ramp1 = "RGAS" then -1
    else if ramp2 = "RGAS" then 1
    else 0
  else 0

/-- The ICAO width-code table of `writeStartupLocationMetadata`: maps a
width code to the bound radius and the size letter, defaulting to
`(10, "S")`. -/
def widthCodeRadiusSize (widthCode : String) : ℚ × String :=
  if widthCode = "A" then (25, "S")
  else if widthCode = "B" then (40, "S")
  else if widthCode = "C" then (60, "M")
  else if widthCode = "D" then (80, "M")
  else if widthCode = "E" then (100, "H")
  else if widthCode = "F" then (130, "H")
  else (10, "S")

/-- Modelled from the spec: `atools::geo::normalizeCourse`, normalizing a
course in degrees to the interval `[0, 360)` (the helper lives in
`geo/calculations.h`, which is not under `src/`). -/
def normalizeCourse (c : ℚ) : ℚ := c - 360 * ⌊c / 360⌋

/-- Modelled from the spec: `atools::geo::opposedCourseDeg`, the opposite
course (the helper is not under `src/`; the source normalizes the result
again via `normalizeCourse`). -/
def opposedCourseDeg (c : ℚ) : ℚ := c + 180

/-- `std::numeric_limits<float>::max() / 4.f`, the initial best-angle
sentinel of the VASI heading search, as an exact rational. -/
def fltMaxQuarter : ℚ := 340282346638528859811704183484516925440 / 4

/-- A pavement node: position plus optional bezier control point. -/
structure PavNode where
  node : Pos
  control : Option Pos
deriving DecidableEq

/-- Modelled from the spec: the apron geometry accumulator (the `Pavement`
class behind `addBoundaryNode` / `addHoleNode` / `writeToByteArray` is not
under `src/`): an ordered boundary node list plus hole node lists.  Holes
are kept most-recently-started first; nodes within a ring are in arrival
order. -/
structure Pavement where
  boundary : List PavNode
  holes : List (List PavNode)
deriving DecidableEq

/-- The cleared accumulator (`currentPavement.clear()`). -/
def Pavement.empty : Pavement := { boundary := [], holes := [] }

/-- Modelled from the spec: append a node to the boundary ring. -/
def Pavement.addBoundaryNode (pav : Pavement) (node : Pos) (control : Option Pos) : Pavement :=
  { pav with boundary := pav.boundary ++ [{ node := node, control := control }] }

/-- Modelled from the spec: append a node to the current hole, starting a
new hole when `newHole` is set (or when no hole exists yet). -/
def Pavement.addHoleNode (pav : Pavement) (node : Pos) (control : Option Pos)
    (newHole : Bool) : Pavement :=
  let x : PavNode := { node := node, control := control }
  if newHole then { pav with holes := [x] :: pav.holes }
  else
    match pav.holes with
    | [] => { pav with holes := [[x]] }
    | h :: t => { pav with holes := (h ++ [x]) :: t }

/-- An executed apron insert (`insertApronQuery->exec()`): the bound
surface string and geometry. -/
structure Apron where
  surface : String
  geometry : Pavement
deriving DecidableEq

/-- The bound values of `insertParkingQuery` that the claims observe. -/
structure ParkingBound where
  pos : Option Pos
  heading : ℚ
  radius : ℚ
  name : String
  airlineCodes : Option String
  type : String
deriving DecidableEq

/-- Cleared parking bound values (`insertParkingQuery->clearBoundValues()`;
reading the cleared `:type` yields the empty string). -/
def clearedParking : ParkingBound :=
  { pos := none, heading := 0, radius := 0, name := "", airlineCodes := none, type := "" }

/-- The bound values of `insertAirportQuery` that the claims observe. -/
structure AirportInsert where
  ident : String
  hasAvgas : Bool
  hasJetfuel : Bool
deriving DecidableEq

/-- Cleared airport bound values. -/
def clearedAirportInsert : AirportInsert :=
  { ident := "", hasAvgas := false, hasJetfuel := false }

/-- A runway-end record (`runwayEndRecords` entry) with the fields the
claims observe. -/
structure RwEndRec where
  name : String
  endType : String
  heading : ℚ
  pos : Pos
  leftVasiType : Option String
  leftVasiPitch : ℚ
  rightVasiType : Option String
  rightVasiPitch : ℚ
deriving DecidableEq

/-- An executed runway insert with the fields the claims observe. -/
structure RunwayRec where
  surface : String
  length : ℚ
  width : ℚ
  heading : ℚ
  primaryName : String
  secondaryName : String
deriving DecidableEq

/-- An executed airport insert (`insertAirportQuery->exec()` in
`finishAirport`) with the fields the claims observe. -/
structure AirportRec where
  ident : String
  hasAvgas : Bool
  hasJetfuel : Bool
  numRunways : ℕ
  boundingRect : Option Rect
  center : Option Pos
deriving DecidableEq

/-- The field layout of a land runway row (row code 100). -/
structure LandRunway where
  width : ℚ
  surface : Surface
  primaryNumber : String
  primaryPos : Pos
  secondaryNumber : String
  secondaryPos : Pos
deriving DecidableEq

/-- The field layout of a water runway row (row code 101). -/
structure WaterRunway where
  width : ℚ
  primaryNumber : String
  primaryPos : Pos
  secondaryNumber : String
  secondaryPos : Pos
deriving DecidableEq

/-- A runway row, land or water variant. -/
inductive RunwayVariant
  | land (d : LandRunway)
  | water (d : WaterRunway)
deriving DecidableEq

/-- The primary threshold position of a runway row. -/
def RunwayVariant.primaryPos : RunwayVariant → Pos
  | .land d => d.primaryPos
  | .water d => d.primaryPos

/-- The secondary threshold position of a runway row. -/
def RunwayVariant.secondaryPos : RunwayVariant → Pos
  | .land d => d.secondaryPos
  | .water d => d.secondaryPos

/-- The external geometry helpers (`geo/calculations.h`, not under
`src/`), treated as an abstract collaborator. -/
structure GeoModel where
  angleDegTo : Pos → Pos → ℚ
  distanceMeterTo : Pos → Pos → ℚ
  meterToFeet : ℚ → ℚ
  interpolate : Pos → Pos → ℚ → ℚ → Pos

/-- The mutable state of `XpAirportWriter` (per-airport accumulators,
assembler flags, bound query values) together with the external airport
index and the records emitted to the sink so far. -/
structure WState where
  writingAirport : Bool
  ignoringAirport : Bool
  curAirportId : ℕ
  airportIcao : String
  airportIndex : List String
  emittedAirportFiles : List String
  emittedAirports : List AirportRec
  airportInsert : AirportInsert
  airportAltitude : ℚ
  airportRect : Option Rect
  airportDatumPos : Option Pos
  airportPos : Option Pos
  writingPavementBoundary : Bool
  writingPavementHoles : Bool
  writingPavementNewHole : Bool
  currentPavement : Pavement
  apronSurface : String
  numApron : ℕ
  emittedAprons : List Apron
  writingStartLocation : Bool
  parking : ParkingBound
  numParking : ℕ
  numParkingGate : ℕ
  numParkingGaRamp : ℕ
  numParkingCargo : ℕ
  numParkingMilCombat : ℕ
  numParkingMilCargo : ℕ
  largestParkingGate : String
  largestParkingRamp : String
  emittedParkings : List ParkingBound
  numRunway : ℕ
  numHardRunway : ℕ
  numSoftRunway : ℕ
  numWaterRunway : ℕ
  longestRunwayLength : ℚ
  longestRunwayCenterPos : Option Pos
  runwayEndRecords : List RwEndRec
  emittedRunways : List RunwayRec
  emittedRunwayEnds : List RwEndRec
  numRunwayEndVasi : ℕ
deriving DecidableEq

/-- The writer state at construction time. -/
def initialState : WState where
  writingAirport := false
  ignoringAirport := false
  curAirportId := 0
  airportIcao := ""
  airportIndex := []
  emittedAirportFiles := []
  emittedAirports := []
  airportInsert := clearedAirportInsert
  airportAltitude := 0
  airportRect := none
  airportDatumPos := none
  airportPos := none
  writingPavementBoundary := false
  writingPavementHoles := false
  writingPavementNewHole := false
  currentPavement := Pavement.empty
  apronSurface := ""
  numApron := 0
  emittedAprons := []
  writingStartLocation := false
  parking := clearedParking
  numParking := 0
  numParkingGate := 0
  numParkingGaRamp := 0
  numParkingCargo := 0
  numParkingMilCombat := 0
  numParkingMilCargo := 0
  largestParkingGate := ""
  largestParkingRamp := ""
  emittedParkings := []
  numRunway := 0
  numHardRunway := 0
  numSoftRunway := 0
  numWaterRunway := 0
  longestRunwayLength := 0
  longestRunwayCenterPos := none
  runwayEndRecords := []
  emittedRunways := []
  emittedRunwayEnds := []
  numRunwayEndVasi := 0

/-- Replace the element at index `i` of a list (the in-place mutation of a
`SqlRecord` found inside `runwayEndRecords`). -/
def modifyAt (l : List α) (i : ℕ) (f : α → α) : List α :=
  match l, i with
  | [], _ => []
  | a :: t, 0 => f a :: t
  | a :: t, n + 1 => a :: modifyAt t n f

/-- `XpAirportWriter::reset`: clears all per-airport accumulators and
returns both states to idle.  The external airport index, the emitted
records, the id counters, the pending query bound values and the pavement
accumulator contents are not touched (faithful to the source). -/
def resetState (st : WState) : WState :=
  { st with
    airportRect := none
    longestRunwayCenterPos := none
    airportPos := none
    airportDatumPos := none
    longestRunwayLength := 0
    numRunway := 0
    numSoftRunway := 0
    numWaterRunway := 0
    numHardRunway := 0
    numParkingGate := 0
    numParkingGaRamp := 0
    numParkingCargo := 0
    numParkingMilCargo := 0
    numParkingMilCombat := 0
    numApron := 0
    numRunwayEndVasi := 0
    numParking := 0
    airportAltitude := 0
    airportIcao := ""
    runwayEndRecords := []
    largestParkingGate := ""
    largestParkingRamp := ""
    writingAirport := false
    ignoringAirport := false
    writingPavementBoundary := false
    writingPavementHoles := false
    writingPavementNewHole := false
    writingStartLocation := false }

/-- `XpAirportWriter::writeAirportFile`: always emits an
`airport_file` audit record for the identifier. -/
def writeAirportFile (st : WState) (icao : String) : WState :=
  { st with emittedAirportFiles := st.emittedAirportFiles ++ [icao] }

/-- `XpAirportWriter::bindAirport`: registers the identifier (audit record
always written), enters the ignoring state on a duplicate or filtered
identifier, otherwise enters the writing state and binds the airport row
basics. -/
def bindAirport (opts : String → Bool) (st : WState) (icao : String) (elevation : ℚ) : WState :=
  let st := { st with curAirportId := st.curAirportId + 1, airportIcao := icao }
  let st := writeAirportFile st icao
  let dup := st.airportIndex.contains icao
  let st := if dup then st else { st with airportIndex := icao :: st.airportIndex }
  if dup || !(opts icao) then
    { st with ignoringAirport := true }
  else
    { st with
      writingAirport := true
      airportAltitude := elevation
      airportInsert := { ident := icao, hasAvgas := false, hasJetfuel := false } }

/-- `XpAirportWriter::finishStartupLocation`: if a stand is pending, rank
its type into the gate/ramp counters and largest trackers, execute the
parking insert and clear the bound values. -/
def finishStartupLocation (st : WState) : WState :=
  if st.writingStartLocation then
    let t := st.parking.type
    let st :=
      if strStartsWith t "G" then
        { st with
          numParkingGate := st.numParkingGate + 1
          largestParkingGate :=
            if st.largestParkingGate = "" || compareGate st.largestParkingGate t > 0 then t
            else st.largestParkingGate }
      else st
    let st :=
      if strStartsWith t "RGA" then
        { st with
          numParkingGaRamp := st.numParkingGaRamp + 1
          largestParkingRamp :=
            if st.largestParkingRamp = "" || compareRamp st.largestParkingRamp t > 0 then t
            else st.largestParkingRamp }
      else st
    let st := if strStartsWith t "RC" then { st with numParkingCargo := st.numParkingCargo + 1 } else st
    let st :=
      if strStartsWith t "RMC" then
        { st with
          numParkingMilCombat := st.numParkingMilCombat + 1
          numParkingMilCargo := st.numParkingMilCargo + 1 }
      else st
    { st with
      emittedParkings := st.emittedParkings ++ [st.parking]
      parking := clearedParking
      writingStartLocation := false }
  else st

/-- `XpAirportWriter::writeStartupLocation` (row code 1300): opens a stand,
applies the fuel name heuristics to the airport flags and binds the stand
type.  In the non-fuel branch the source binds "G"/"H"/"T" and then
re-binds the empty string without an `else`, so the last bind always
wins. -/
def writeStartupLocation (st : WState) (pos : Pos) (heading : ℚ)
    (slType : String) (name : String) : WState :=
  if st.ignoringAirport then st
  else
    let st := { st with writingStartLocation := true, numParking := st.numParking + 1 }
    let st := { st with airportRect := extendRect st.airportRect pos }
    let lower := strToLower name
    let hasFuel1 := strHasSub lower "avgas" || strHasSub lower "mogas" ||
      strHasSub lower "gas-station"
    let st :=
      if hasFuel1 then
        { st with airportInsert := { st.airportInsert with hasAvgas := true } }
      else st
    let hasFuel2 := strHasSub lower "jetfuel"
    let st :=
      if hasFuel2 then
        { st with airportInsert := { st.airportInsert with hasJetfuel := true } }
      else st
    let hasFuel3 := strHasSub lower "fuel"
    let st :=
      if hasFuel3 then
        { st with airportInsert :=
            { st.airportInsert with hasJetfuel := true, hasAvgas := true } }
      else st
    let hasFuel := hasFuel1 || hasFuel2 || hasFuel3
    let parking : ParkingBound :=
      { pos := some pos, heading := heading, radius := 50, name := name,
        airlineCodes := none, type := st.parking.type }
    let parking :=
      if hasFuel then { parking with type := "FUEL" }
      else
        let parking :=
          if slType = "gate" then { parking with type := "G" }
          else if slType = "hangar" then { parking with type := "H" }
          else if slType = "tie-down" then { parking with type := "T" }
          else parking
        { parking with type := "" }
    { st with parking := parking }

/-- `XpAirportWriter::writeStartupLocationMetadata` (row code 1301):
optionally overrides the stand type from the operations type, binds
airline codes, binds the radius from the ICAO width code and appends the
size letter to a "G"/"RGA" type. -/
def writeStartupLocationMetadata (st : WState) (widthCode opsType : String)
    (airline : Option String) : WState :=
  if st.ignoringAirport then st
  else
    let isFuel := st.parking.type = "FUEL"
    let parking := st.parking
    let parking :=
      if !isFuel then
        if opsType = "general_aviation" then { parking with type := "RGA" }
        else if opsType = "cargo" then { parking with type := "RC" }
        else if opsType = "military" then { parking with type := "RM" }
        else parking
      else parking
    let parking :=
      match airline with
      | some a => { parking with airlineCodes := some (strToUpper a) }
      | none => parking
    let rs := widthCodeRadiusSize widthCode
    let parking := { parking with radius := rs.1 }
    let parking :=
      if !isFuel && (parking.type = "G" || parking.type = "RGA") then
        { parking with type := parking.type ++ rs.2 }
      else parking
    { st with parking := parking }

/-- `XpAirportWriter::bindPavement`: starts a fresh boundary collection
and a new apron record with the decoded surface. -/
def bindPavement (st : WState) (surface : Surface) : WState :=
  if st.ignoringAirport then st
  else
    { st with
      currentPavement := Pavement.empty
      writingPavementBoundary := true
      writingPavementHoles := false
      writingPavementNewHole := false
      numApron := st.numApron + 1
      apronSurface := surfaceToDb surface }

/-- `XpAirportWriter::bindPavementNode`: appends the node to the boundary
or to the current hole, and on a closing row code switches from the
boundary phase to the holes phase or flags the start of a new hole. -/
def bindPavementNode (st : WState) (pos : Pos) (control : Option Pos) (close : Bool) : WState :=
  if st.ignoringAirport then st
  else
    let st := { st with airportRect := extendRect st.airportRect pos }
    let pav :=
      if st.writingPavementBoundary then st.currentPavement.addBoundaryNode pos control
      else if st.writingPavementHoles then
        st.currentPavement.addHoleNode pos control st.writingPavementNewHole
      else st.currentPavement
    let st := { st with currentPavement := pav, writingPavementNewHole := false }
    if close then
      let st :=
        if st.writingPavementBoundary then
          { st with writingPavementBoundary := false, writingPavementHoles := true }
        else st
      if st.writingPavementHoles then { st with writingPavementNewHole := true } else st
    else st

/-- `XpAirportWriter::finishPavement`: if a collection is in progress
(boundary or holes flag set), executes the apron insert with the
accumulated geometry and resets the three assembler flags. -/
def finishPavement (st : WState) : WState :=
  if st.ignoringAirport then st
  else if st.writingPavementBoundary || st.writingPavementHoles then
    { st with
      emittedAprons := st.emittedAprons ++
        [{ surface := st.apronSurface, geometry := st.currentPavement }]
      writingPavementBoundary := false
      writingPavementHoles := false
      writingPavementNewHole := false }
  else st

/-- `XpAirportWriter::bindRunway`: resolves the variant field layout,
computes length/width/headings/center via the geometry helpers, updates
the counters and the longest-runway summary (of which only the length and
center position are embedded), and appends the runway record plus the two
runway-end records.  Lights, markings, threshold fields and the start
position inserts, which no verified property observes, are omitted. -/
def bindRunway (geo : GeoModel) (st : WState) (rw : RunwayVariant) : WState :=
  if st.ignoringAirport then st
  else
    let primaryPos := rw.primaryPos
    let secondaryPos := rw.secondaryPos
    let primaryName := match rw with | .land d => d.primaryNumber | .water d => d.primaryNumber
    let secondaryName :=
      match rw with | .land d => d.secondaryNumber | .water d => d.secondaryNumber
    let surface := match rw with | .land d => d.surface | .water _ => Surface.water
    let width := match rw with | .land d => d.width | .water d => d.width
    let lengthMeter := geo.distanceMeterTo primaryPos secondaryPos
    let lengthFeet := geo.meterToFeet lengthMeter
    let widthFeet := geo.meterToFeet width
    let primaryHeading := geo.angleDegTo primaryPos secondaryPos
    let secondaryHeading := normalizeCourse (opposedCourseDeg primaryHeading)
    let center := geo.interpolate primaryPos secondaryPos lengthMeter (1 / 2)
    let st := { st with airportRect := extendRect (extendRect st.airportRect primaryPos) secondaryPos }
    let st :=
      { st with
        numRunway := st.numRunway + 1
        numHardRunway := st.numHardRunway + (if isSurfaceHard surface then 1 else 0)
        numSoftRunway := st.numSoftRunway + (if isSurfaceSoft surface then 1 else 0)
        numWaterRunway := st.numWaterRunway + (if isSurfaceWater surface then 1 else 0) }
    let surfaceStr := surfaceToDb surface
    let st :=
      { st with
        longestRunwayLength :=
          if lengthFeet > st.longestRunwayLength then lengthFeet else st.longestRunwayLength
        longestRunwayCenterPos :=
          if lengthFeet > st.longestRunwayLength then some center
          else st.longestRunwayCenterPos }
    let primRec : RwEndRec :=
      { name := primaryName, endType := "P", heading := primaryHeading, pos := primaryPos,
        leftVasiType := none, leftVasiPitch := 0, rightVasiType := none, rightVasiPitch := 0 }
    let secRec : RwEndRec :=
      { name := secondaryName, endType := "S", heading := secondaryHeading, pos := secondaryPos,
        leftVasiType := none, leftVasiPitch := 0, rightVasiType := none, rightVasiPitch := 0 }
    { st with
      runwayEndRecords := st.runwayEndRecords ++ [primRec, secRec]
      emittedRunways := st.emittedRunways ++
        [{ surface := surfaceStr, length := lengthFeet, width := widthFeet,
           heading := primaryHeading, primaryName := primaryName,
           secondaryName := secondaryName }] }

/-- The by-angle candidate search of `bindVasi`: a plain comparison of the
absolute numeric difference between record heading and row orientation,
accepted when below 10 and closer than the previous best sentinel
(initially `FLT_MAX / 4`). -/
def vasiAngleSearch (recs : List RwEndRec) (orientation : ℚ) : Option ℕ :=
  (recs.foldl
    (fun (acc : Option ℕ × ℚ × ℕ) (rec : RwEndRec) =>
      let best := acc.1
      let bestAngle := acc.2.1
      let idx := acc.2.2
      let diff := |rec.heading - orientation|
      if diff < 10 ∧ diff < |bestAngle - orientation| then (some idx, rec.heading, idx + 1)
      else (best, bestAngle, idx + 1))
    (none, fltMaxQuarter, 0)).1

/-- `XpAirportWriter::bindVasi`: ignores "none"/"runway guard" rows, finds
a runway end by exact name and otherwise by nearest heading, and if found
sets its VASI fields and bumps the counter; otherwise only a warning is
logged and nothing is mutated. -/
def bindVasi (st : WState) (typ : ApproachIndicator) (orientation angle : ℚ)
    (rwName : String) : WState :=
  if st.ignoringAirport then st
  else if typ = .noApprIndicator ∨ typ = .runwayGuard then st
  else
    let byName :=
      if rwName ≠ "" then st.runwayEndRecords.findIdx? (fun r => r.name == rwName) else none
    let best :=
      match byName with
      | some i => some i
      | none => vasiAngleSearch st.runwayEndRecords orientation
    match best with
    | some i =>
        { st with
          runwayEndRecords := modifyAt st.runwayEndRecords i
            (fun r =>
              { r with
                leftVasiType := some (approachIndicatorToDb typ)
                leftVasiPitch := angle
                rightVasiType := some "UNKN"
                rightVasiPitch := 0 })
          numRunwayEndVasi := st.numRunwayEndVasi + 1 }
    | none => st

/-- The bounding-rectangle and representative-position resolution of
`finishAirport` (the fallback chain of lines 1399-1441): given the
accumulated rectangle, the datum position, the longest-runway center and
the runway count, returns the resolved rectangle and position. -/
def resolveAirportRectAndPos (rect : Option Rect) (datum : Option Pos)
    (longestCenter : Option Pos) (numRunway : ℕ) (pos0 : Option Pos) :
    Option Rect × Option Pos :=
  match rect with
  | none =>
      match datum with
      | some d => (some (Rect.point d), some d)
      | none =>
          match longestCenter with
          | some c => (some (Rect.point c), some c)
          | none => (none, pos0)
  | some r =>
      match datum with
      | some d =>
          if (r.inflate posEpsilon100M posEpsilon100M).containsPos d then (some r, some d)
          else if numRunway = 1 then (some r, longestCenter)
          else (some r, some r.getCenter)
      | none => (some r, pos0)

/-- `XpAirportWriter::finishAirport`: when an airport is being written and
not ignored, resolves the bounding rectangle and center, executes the
airport insert and the batched runway-end inserts, and resets; otherwise
just resets. -/
def finishAirport (st : WState) : WState :=
  if st.writingAirport && !st.ignoringAirport then
    let rp := resolveAirportRectAndPos st.airportRect st.airportDatumPos
      st.longestRunwayCenterPos st.numRunway st.airportPos
    let rect2 :=
      match rp.1 with
      | some r => some (if r.isPoint then r.inflate (1 / 60) (1 / 60) else r)
      | none => none
    let center :=
      match rp.2 with
      | some p => some p
      | none => rect2.map Rect.getCenter
    let rec1 : AirportRec :=
      { ident := st.airportInsert.ident
        hasAvgas := st.airportInsert.hasAvgas
        hasJetfuel := st.airportInsert.hasJetfuel
        numRunways := st.numSoftRunway + st.numWaterRunway + st.numHardRunway
        boundingRect := rect2
        center := center }
    let st :=
      { st with
        emittedAirports := st.emittedAirports ++ [rec1]
        emittedRunwayEnds := st.emittedRunwayEnds ++ st.runwayEndRecords
        airportInsert := clearedAirportInsert }
    resetState st
  else resetState st

/-- The classified input rows needed by the claims; `unusedRow` stands for
every explicitly ignored row code. -/
inductive Row
  | airportHeader (icao : String) (elevation : ℚ) (name : String)
  | runway (rw : RunwayVariant)
  | pavementHeader (surface : Surface)
  | node (pos : Pos)
  | nodeAndControlPoint (pos ctrl : Pos)
  | nodeClose (pos : Pos)
  | nodeAndControlPointClose (pos ctrl : Pos)
  | airportLocation (pos : Pos) (heading : ℚ) (slType : String) (name : String)
  | rampStartMetadata (widthCode : String) (opsType : String) (airline : Option String)
  | lightingObject (typ : ApproachIndicator) (orientation angle : ℚ) (runwayName : String)
  | unusedRow
deriving DecidableEq

/-- The pavement-continuation row codes exempt from the pavement flush in
`write`. -/
def Row.isPavementRow : Row → Bool
  | .pavementHeader _ => true
  | .node _ => true
  | .nodeAndControlPoint _ _ => true
  | .nodeClose _ => true
  | .nodeAndControlPointClose _ _ => true
  | _ => false

/-- The metadata-continuation row code exempt from the startup-location
flush in `write`. -/
def Row.isRampMetadata : Row → Bool
  | .rampStartMetadata _ _ _ => true
  | _ => false

/-- `XpAirportWriter::write`: the row dispatch, including the implicit
flushes of a pending polygon or parking stand. -/
def write (geo : GeoModel) (opts : String → Bool) (st : WState) (row : Row) : WState :=
  let st := if !row.isPavementRow then finishPavement st else st
  let st := if !row.isRampMetadata then finishStartupLocation st else st
  match row with
  | .airportHeader icao elevation _ => bindAirport opts (finishAirport st) icao elevation
  | .runway rw => bindRunway geo st rw
  | .pavementHeader surface => bindPavement (finishPavement st) surface
  | .node p => bindPavementNode st p none false
  | .nodeAndControlPoint p c => bindPavementNode st p (some c) false
  | .nodeClose p => bindPavementNode st p none true
  | .nodeAndControlPointClose p c => bindPavementNode st p (some c) true
  | .airportLocation p h t n => writeStartupLocation (finishStartupLocation st) p h t n
  | .rampStartMetadata w o a => writeStartupLocationMetadata st w o a
  | .lightingObject t o a r => bindVasi st t o a r
  | .unusedRow => st

/-- Feeding a row sequence through `write`. -/
def processRows (geo : GeoModel) (opts : String → Bool) (st : WState) (rows : List Row) : WState :=
  rows.foldl (write geo opts) st

/-- `XpAirportWriter::finish`: the end-of-input flush. -/
def finishAll (st : WState) : WState :=
  finishAirport (finishStartupLocation (finishPavement st))

/-- A concrete geometry collaborator used to instantiate scenarios. -/
def dummyGeo : GeoModel where
  angleDegTo := fun _ _ => 90
  distanceMeterTo := fun _ _ => 1000
  meterToFeet := fun m => m * 1250 / 381
  interpolate := fun p _ _ _ => p

/-- An inclusion filter accepting every identifier. -/
def optsAll : String → Bool := fun _ => true

/-- A writing-state airport with a single accumulated runway end of
heading 356 degrees, for exercising the VASI heading match. -/
def vasiTestState : WState :=
  { initialState with
    writingAirport := true
    runwayEndRecords :=
      [{ name := "35", endType := "P", heading := 356, pos := { lonx := 0, laty := 0 },
         leftVasiType := none, leftVasiPitch := 0, rightVasiType := none,
         rightVasiPitch := 0 }] }

/-- The state after an airport header immediately followed by a pavement
header: the boundary collection is open with zero nodes. -/
def headerThenPavementState : WState :=
  processRows dummyGeo optsAll initialState
    [Row.airportHeader "XELD" 0 "Eldwood", Row.pavementHeader Surface.asphalt]

/-- A concrete land runway row. -/
def landRow0 : LandRunway :=
  { width := 30, surface := Surface.asphalt, primaryNumber := "09",
    primaryPos := { lonx := 8, laty := 50 }, secondaryNumber := "27",
    secondaryPos := { lonx := 9, laty := 50 } }

end Xp

namespace Xp

/-! ### Helper lemmas -/

theorem processRows_append (geo : GeoModel) (opts : String → Bool) (st : WState)
    (l1 l2 : List Row) :
    processRows geo opts st (l1 ++ l2) = processRows geo opts (processRows geo opts st l1) l2 :=
  List.foldl_append _ _ _ _

theorem finishStartupLocation_id (st : WState) (h : st.writingStartLocation = false) :
    finishStartupLocation st = st := by
  simp [finishStartupLocation, h]

theorem finishPavement_emit (st : WState) (hig : st.ignoringAirport = false)
    (hflag : st.writingPavementBoundary = true ∨ st.writingPavementHoles = true) :
    finishPavement st =
      { st with
        emittedAprons := st.emittedAprons ++
          [{ surface := st.apronSurface, geometry := st.currentPavement }]
        writingPavementBoundary := false
        writingPavementHoles := false
        writingPavementNewHole := false } := by
  have hcond : (st.writingPavementBoundary || st.writingPavementHoles) = true := by
    rcases hflag with h | h <;> simp [h]
  simp [finishPavement, hig, hcond]

theorem finishPavement_inactive (st : WState) (h1 : st.writingPavementBoundary = false)
    (h2 : st.writingPavementHoles = false) : finishPavement st = st := by
  simp [finishPavement, h1, h2]

/-! ### Claim C2 -/

/-- Claim C2 counterexample: with no accumulated rectangle, a valid datum
position and a valid longest-runway center, `finishAirport`'s fallback
chain (`resolveAirportRectAndPos`) picks the datum position as the center,
not the longest-runway center — refuting the claim that the datum is never
used as the fallback center. -/
theorem c2_datum_used_counterexample :
    (resolveAirportRectAndPos none (some { lonx := 8, laty := 50 })
        (some { lonx := 9, laty := 51 }) 1 none).2 = some { lonx := 8, laty := 50 } ∧
    (resolveAirportRectAndPos none (some { lonx := 8, laty := 50 })
        (some { lonx := 9, laty := 51 }) 1 none).2 ≠ some { lonx := 9, laty := 51 } := by
  exact ⟨rfl, by decide⟩

/-- Claim C2 (amended): at airport finalize, whenever no bounding
rectangle was accumulated, a valid datum position IS used as the fallback
center position; the longest-runway center is chosen as fallback center
only when the rectangle is missing and the datum position is also
missing. -/
theorem c2_fallback_amended :
    (∀ (d : Pos) (c : Option Pos) (n : ℕ) (p0 : Option Pos),
      (resolveAirportRectAndPos none (some d) c n p0).2 = some d) ∧
    (∀ (c : Pos) (n : ℕ) (p0 : Option Pos),
      (resolveAirportRectAndPos none none (some c) n p0).2 = some c) ∧
    (∀ (n : ℕ), (resolveAirportRectAndPos none none none n none).2 = none) :=
  ⟨fun _ _ _ _ => rfl, fun _ _ _ => rfl, fun _ => rfl⟩

/-! ### Claim C5 -/

/-- Claim C5: the gate comparator satisfies the stated total-order-like
table: "GH" vs "GS" gives 1 and -1, reflexive pairs are 0, "GH" outranks every
other code, "GS" is outranked by every code other than "GH", and any two
codes outside the pair compare equal. -/
theorem c5_compareGate_spec :
    compareGate "GH" "GS" = 1 ∧ compareGate "GS" "GH" = -1 ∧
    (∀ x : String, compareGate x x = 0) ∧
    (∀ y : String, y ≠ "GH" → compareGate "GH" y = 1 ∧ compareGate y "GH" = -1) ∧
    (∀ y : String, y ≠ "GH" → y ≠ "GS" → compareGate "GS" y = -1 ∧ compareGate y "GS" = 1) ∧
    (∀ x y : String, x ≠ "GH" → x ≠ "GS" → y ≠ "GH" → y ≠ "GS" → compareGate x y = 0) := by
  refine ⟨by decide, by decide, ?_, ?_, ?_, ?_⟩
  · intro x
    simp [compareGate]
  · intro y hy
    have hy2 : "GH" ≠ y := Ne.symm hy
    constructor
    · simp [compareGate, hy2]
    · simp [compareGate, hy]
  · intro y h1 h2
    have h3 : "GS" ≠ y := Ne.symm h2
    constructor
    · simp [compareGate, h3, h1]
    · simp [compareGate, h2, h1]
  · intro x y hx1 hx2 hy1 hy2
    by_cases hxy : x = y
    · subst hxy
      simp [compareGate]
    · simp [compareGate, hxy, hx1, hx2, hy1, hy2]

/-- Claim C5 witness: the universally quantified parts of the comparator
table evaluated at the concrete code "RGA". -/
theorem c5_compareGate_spec_witness :
    ("RGA" : String) ≠ "GH" ∧ ("RGA" : String) ≠ "GS" ∧
    compareGate "GH" "RGA" = 1 ∧ compareGate "RGA" "GH" = -1 ∧
    compareGate "GS" "RGA" = -1 ∧ compareGate "RGA" "GS" = 1 ∧
    compareGate "RGA" "RGA" = 0 :=
  ⟨by decide, by decide,
    (c5_compareGate_spec.2.2.2.1 "RGA" (by decide)).1,
    (c5_compareGate_spec.2.2.2.1 "RGA" (by decide)).2,
    (c5_compareGate_spec.2.2.2.2.1 "RGA" (by decide) (by decide)).1,
    (c5_compareGate_spec.2.2.2.2.1 "RGA" (by decide) (by decide)).2,
    c5_compareGate_spec.2.2.1 "RGA"⟩

/-! ### Claim C6 -/

/-- Claim C6: the ICAO width-code table used for parking-stand metadata
maps A/B/C/D/E/F to the stated radius and size-letter pairs and every
other input to the default `(10, "S")`. -/
theorem c6_widthCode_table :
    widthCodeRadiusSize "A" = (25, "S") ∧ widthCodeRadiusSize "B" = (40, "S") ∧
    widthCodeRadiusSize "C" = (60, "M") ∧ widthCodeRadiusSize "D" = (80, "M") ∧
    widthCodeRadiusSize "E" = (100, "H") ∧ widthCodeRadiusSize "F" = (130, "H") ∧
    (∀ w : String, w ≠ "A" → w ≠ "B" → w ≠ "C" → w ≠ "D" → w ≠ "E" → w ≠ "F" →
      widthCodeRadiusSize w = (10, "S")) := by
  refine ⟨by decide, by decide, by decide, by decide, by decide, by decide, ?_⟩
  intro w h1 h2 h3 h4 h5 h6
  simp [widthCodeRadiusSize, h1, h2, h3, h4, h5, h6]

/-- Claim C6 witness: the default branch evaluated at the unknown width
code "Z". -/
theorem c6_widthCode_table_witness :
    ("Z" : String) ≠ "A" ∧ widthCodeRadiusSize "Z" = (10, "S") :=
  ⟨by decide,
    c6_widthCode_table.2.2.2.2.2.2 "Z" (by decide) (by decide) (by decide) (by decide)
      (by decide) (by decide)⟩

/-! ### Claim C10 -/

/-- Claim C10: the VASI heading match compares the raw absolute numeric
heading difference with no wrap-around at 0/360: with orientation 4 and a
single accumulated runway end of heading 356 (numeric difference 352,
angular distance 8), `bindVasi` finds no candidate and mutates nothing. -/
theorem c10_vasi_no_wraparound :
    bindVasi vasiTestState ApproachIndicator.vasi 4 3 "" = vasiTestState ∧
    vasiTestState.runwayEndRecords.map RwEndRec.heading = [356] ∧
    |(356 : ℚ) - 4| = 352 := by
  have habs : |(356 : ℚ) - 4| = 352 := by norm_num
  have hlt : ¬((352 : ℚ) < 10) := by norm_num
  refine ⟨?_, by decide, habs⟩
  simp [bindVasi, vasiAngleSearch, vasiTestState, initialState, habs, hlt]

/-! ### Claim C3 -/

/-- Claim C3 counterexample: after a pavement header immediately followed
by a flush trigger, the in-progress boundary ring has zero nodes, yet the
flush emits an apron entity (with empty geometry) — refuting the claim
that no pavement entity is emitted in this situation. -/
theorem c3_empty_boundary_emits_counterexample :
    headerThenPavementState.currentPavement.boundary = [] ∧
    headerThenPavementState.writingPavementBoundary = true ∧
    (finishPavement headerThenPavementState).emittedAprons.length = 1 ∧
    headerThenPavementState.emittedAprons.length = 0 := by
  refine ⟨by decide, by decide, by decide, by decide⟩

/-- Claim C3 (amended): when the polygon flush is triggered while the
assembler is collecting (boundary or holes flag set), a pavement entity is
emitted even when the boundary ring contains zero nodes, and all three
assembler flags are reset to false; only when neither collecting flag is
set is the flush a no-op. -/
theorem c3_flush_amended :
    (∀ st : WState, st.ignoringAirport = false →
      st.writingPavementBoundary = true ∨ st.writingPavementHoles = true →
      (finishPavement st).emittedAprons = st.emittedAprons ++
          [{ surface := st.apronSurface, geometry := st.currentPavement }] ∧
        (finishPavement st).writingPavementBoundary = false ∧
        (finishPavement st).writingPavementHoles = false ∧
        (finishPavement st).writingPavementNewHole = false) ∧
    (∀ st : WState, st.writingPavementBoundary = false → st.writingPavementHoles = false →
      finishPavement st = st) := by
  constructor
  · intro st hig hflag
    rw [finishPavement_emit st hig hflag]
    exact ⟨rfl, rfl, rfl, rfl⟩
  · intro st h1 h2
    exact finishPavement_inactive st h1 h2

/-- Claim C3 (amended) witness: the flush applied to the concrete
zero-node boundary state. -/
theorem c3_flush_amended_witness :
    headerThenPavementState.ignoringAirport = false ∧
    ((finishPavement headerThenPavementState).emittedAprons =
        headerThenPavementState.emittedAprons ++
          [{ surface := headerThenPavementState.apronSurface,
             geometry := headerThenPavementState.currentPavement }] ∧
      (finishPavement headerThenPavementState).writingPavementBoundary = false ∧
      (finishPavement headerThenPavementState).writingPavementHoles = false ∧
      (finishPavement headerThenPavementState).writingPavementNewHole = false) :=
  ⟨by decide,
    c3_flush_amended.1 headerThenPavementState (by decide) (Or.inl (by decide))⟩

/-! ### Claim C9 -/

theorem listStartsWith_hasSub (s p : List Char) (h : listStartsWith s p = true) :
    listHasSub s p = true := by
  cases s with
  | nil => exact h
  | cons c t => simp [listHasSub, h]

theorem listStartsWith_append_hasSub (x y : List Char) :
    ∀ s : List Char, listStartsWith s (x ++ y) = true → listHasSub s y = true := by
  induction x with
  | nil =>
    intro s h
    exact listStartsWith_hasSub s y (by simpa using h)
  | cons a as ih =>
    intro s h
    cases s with
    | nil => simp [listStartsWith] at h
    | cons b bs =>
      have h2 : listStartsWith bs (as ++ y) = true := by
        simp only [List.cons_append, listStartsWith, Bool.and_eq_true] at h
        exact h.2
      have h3 := ih bs h2
      simp [listHasSub, h3]

theorem listHasSub_append_left (x y : List Char) :
    ∀ s : List Char, listHasSub s (x ++ y) = true → listHasSub s y = true := by
  intro s
  induction s with
  | nil =>
    intro h
    exact listStartsWith_append_hasSub x y [] h
  | cons c t ih =>
    intro h
    simp only [listHasSub, Bool.or_eq_true] at h
    rcases h with h | h
    · exact listStartsWith_append_hasSub x y (c :: t) h
    · simp [listHasSub, ih h]

theorem strHasSub_jetfuel_fuel (s : String) (h : strHasSub s "jetfuel" = true) :
    strHasSub s "fuel" = true := by
  have hdecomp : ("jetfuel" : String).data = ("jet" : String).data ++ ("fuel" : String).data := by
    decide
  unfold strHasSub at h ⊢
  rw [hdecomp] at h
  exact listHasSub_append_left _ _ _ h

/-- Claim C9: a startup-location row whose name contains "jetfuel"
(case-insensitively) sets both the airport jetfuel and avgas flags and
binds the stand type to "FUEL", because the name then also satisfies the
generic "fuel" substring test. -/
theorem c9_jetfuel_sets_flags (st : WState) (pos : Pos) (heading : ℚ) (slType name : String)
    (hig : st.ignoringAirport = false)
    (h : strHasSub (strToLower name) "jetfuel" = true) :
    (writeStartupLocation st pos heading slType name).airportInsert.hasJetfuel = true ∧
    (writeStartupLocation st pos heading slType name).airportInsert.hasAvgas = true ∧
    (writeStartupLocation st pos heading slType name).parking.type = "FUEL" := by
  have hf : strHasSub (strToLower name) "fuel" = true := strHasSub_jetfuel_fuel _ h
  simp [writeStartupLocation, hig, h, hf]

/-- Claim C9 witness: the fuel heuristics evaluated on the concrete stand
name "Jetfuel Depot". -/
theorem c9_jetfuel_sets_flags_witness :
    initialState.ignoringAirport = false ∧
    strHasSub (strToLower "Jetfuel Depot") "jetfuel" = true ∧
    ((writeStartupLocation initialState { lonx := 8, laty := 50 } 90 "misc"
        "Jetfuel Depot").airportInsert.hasJetfuel = true ∧
      (writeStartupLocation initialState { lonx := 8, laty := 50 } 90 "misc"
        "Jetfuel Depot").airportInsert.hasAvgas = true ∧
      (writeStartupLocation initialState { lonx := 8, laty := 50 } 90 "misc"
        "Jetfuel Depot").parking.type = "FUEL") :=
  ⟨rfl, by decide,
    c9_jetfuel_sets_flags initialState { lonx := 8, laty := 50 } 90 "misc" "Jetfuel Depot"
      rfl (by decide)⟩

/-! ### Claim C7 -/

theorem normalizeCourse_mem (c : ℚ) : 0 ≤ normalizeCourse c ∧ normalizeCourse c < 360 := by
  have h360 : (0 : ℚ) < 360 := by norm_num
  have h1 : 0 ≤ c - ⌊c / 360⌋ * 360 := Int.sub_floor_div_mul_nonneg c h360
  have h2 : c - ⌊c / 360⌋ * 360 < 360 := Int.sub_floor_div_mul_lt c h360
  unfold normalizeCourse
  constructor <;> [linarith [h1]; linarith [h2]]

/-- Claim C7: for every runway row (land or water), `bindRunway` appends a
primary and a secondary runway-end record where the primary heading is the
bearing from primary to secondary position and the stored secondary
heading equals the primary heading plus 180 degrees normalized to
`[0, 360)` (exact equality in the rational model, hence within floating
tolerance). -/
theorem c7_secondary_heading (geo : GeoModel) (st : WState) (rw : RunwayVariant)
    (hig : st.ignoringAirport = false) :
    ∃ primRec secRec : RwEndRec,
      (bindRunway geo st rw).runwayEndRecords = st.runwayEndRecords ++ [primRec, secRec] ∧
      primRec.heading = geo.angleDegTo rw.primaryPos rw.secondaryPos ∧
      secRec.heading = normalizeCourse (primRec.heading + 180) ∧
      0 ≤ secRec.heading ∧ secRec.heading < 360 := by
  simp only [bindRunway, hig, Bool.false_eq_true, if_false]
  exact ⟨_, _, rfl, rfl, rfl, (normalizeCourse_mem _).1, (normalizeCourse_mem _).2⟩

/-- Claim C7 witness: the heading relation at a concrete land runway
row. -/
theorem c7_secondary_heading_witness :
    initialState.ignoringAirport = false ∧
    (∃ primRec secRec : RwEndRec,
      (bindRunway dummyGeo initialState
          (RunwayVariant.land landRow0)).runwayEndRecords =
        initialState.runwayEndRecords ++ [primRec, secRec] ∧
      primRec.heading = dummyGeo.angleDegTo (RunwayVariant.land landRow0).primaryPos
        (RunwayVariant.land landRow0).secondaryPos ∧
      secRec.heading = normalizeCourse (primRec.heading + 180) ∧
      0 ≤ secRec.heading ∧ secRec.heading < 360) :=
  ⟨rfl, c7_secondary_heading dummyGeo initialState (RunwayVariant.land landRow0) rfl⟩

/-! ### Claim C8 -/

theorem write_header (geo : GeoModel) (opts : String → Bool) (st : WState)
    (icao : String) (e : ℚ) (n : String) :
    write geo opts st (Row.airportHeader icao e n) =
      bindAirport opts (finishAirport (finishStartupLocation (finishPavement st))) icao e := rfl

/-- Claim C8: an airport header row carrying an identifier already
registered in the session's airport index sends the session into the
ignoring state, emits no second Airport record for that identifier, and
still writes an AirportFileRecord for it. -/
theorem c8_duplicate_airport (geo : GeoModel) (opts : String → Bool) (icao : String)
    (e1 e2 : ℚ) (n1 n2 : String) (hopts : opts icao = true) :
    let st1 := write geo opts initialState (Row.airportHeader icao e1 n1)
    let st2 := write geo opts st1 (Row.airportHeader icao e2 n2)
    st2.ignoringAirport = true ∧
    (finishAll st2).emittedAirports.map AirportRec.ident = [icao] ∧
    (finishAll st2).emittedAirportFiles = [icao, icao] := by
  intro st1 st2
  have h0 : finishAirport (finishStartupLocation (finishPavement initialState)) =
      initialState := by decide
  have hst1 : st1 =
      { initialState with
        curAirportId := 1
        airportIcao := icao
        emittedAirportFiles := [icao]
        airportIndex := [icao]
        writingAirport := true
        airportAltitude := e1
        airportInsert := { ident := icao, hasAvgas := false, hasJetfuel := false } } := by
    show write geo opts initialState (Row.airportHeader icao e1 n1) = _
    rw [write_header, h0]
    simp [bindAirport, writeAirportFile, initialState, hopts]
  have hP1 : finishPavement st1 = st1 := finishPavement_inactive st1 (by rw [hst1]; rfl) (by rw [hst1]; rfl)
  have hS1 : finishStartupLocation st1 = st1 := finishStartupLocation_id st1 (by rw [hst1]; rfl)
  have hA1 : finishAirport st1 =
      { initialState with
        curAirportId := 1
        airportIndex := [icao]
        emittedAirportFiles := [icao]
        emittedAirports :=
          [{ ident := icao, hasAvgas := false, hasJetfuel := false, numRunways := 0,
             boundingRect := none, center := none }] } := by
    rw [hst1]
    simp [finishAirport, resolveAirportRectAndPos, resetState, clearedAirportInsert, initialState]
  have hst2 : st2 =
      { initialState with
        curAirportId := 2
        airportIcao := icao
        airportIndex := [icao]
        emittedAirportFiles := [icao, icao]
        emittedAirports :=
          [{ ident := icao, hasAvgas := false, hasJetfuel := false, numRunways := 0,
             boundingRect := none, center := none }]
        ignoringAirport := true } := by
    show write geo opts st1 (Row.airportHeader icao e2 n2) = _
    rw [write_header, hP1, hS1, hA1]
    simp [bindAirport, writeAirportFile]
  have hP2 : finishPavement st2 = st2 := finishPavement_inactive st2 (by rw [hst2]; rfl) (by rw [hst2]; rfl)
  have hS2 : finishStartupLocation st2 = st2 := finishStartupLocation_id st2 (by rw [hst2]; rfl)
  refine ⟨by rw [hst2], ?_, ?_⟩
  · show (finishAirport (finishStartupLocation (finishPavement st2))).emittedAirports.map
      AirportRec.ident = [icao]
    rw [hP2, hS2, hst2]
    simp [finishAirport, resetState]
  · show (finishAirport (finishStartupLocation (finishPavement st2))).emittedAirportFiles =
      [icao, icao]
    rw [hP2, hS2, hst2]
    simp [finishAirport, resetState]

/-- Claim C8 witness: the duplicate-identifier scenario at the concrete
identifier "KSEA" with an all-accepting inclusion filter. -/
theorem c8_duplicate_airport_witness :
    optsAll "KSEA" = true ∧
    (let st1 := write dummyGeo optsAll initialState (Row.airportHeader "KSEA" 100 "Seattle")
     let st2 := write dummyGeo optsAll st1 (Row.airportHeader "KSEA" 100 "Seattle")
     st2.ignoringAirport = true ∧
     (finishAll st2).emittedAirports.map AirportRec.ident = ["KSEA"] ∧
     (finishAll st2).emittedAirportFiles = ["KSEA", "KSEA"]) :=
  ⟨rfl, c8_duplicate_airport dummyGeo optsAll "KSEA" 100 100 "Seattle" "Seattle" rfl⟩

/-! ### Claim C4 -/

theorem write_nodeRow (geo : GeoModel) (opts : String → Bool) (st : WState) (p : Pos)
    (hsl : st.writingStartLocation = false) :
    write geo opts st (Row.node p) = bindPavementNode st p none false := by
  simp [write, Row.isPavementRow, Row.isRampMetadata, finishStartupLocation_id st hsl]

theorem write_nodeCloseRow (geo : GeoModel) (opts : String → Bool) (st : WState) (p : Pos)
    (hsl : st.writingStartLocation = false) :
    write geo opts st (Row.nodeClose p) = bindPavementNode st p none true := by
  simp [write, Row.isPavementRow, Row.isRampMetadata, finishStartupLocation_id st hsl]

theorem bindPavementNode_boundary_plain (st : WState) (p : Pos)
    (hig : st.ignoringAirport = false) (hb : st.writingPavementBoundary = true) :
    bindPavementNode st p none false =
      { st with
        airportRect := extendRect st.airportRect p
        currentPavement :=
          { boundary := st.currentPavement.boundary ++ [{ node := p, control := none }],
            holes := st.currentPavement.holes }
        writingPavementNewHole := false } := by
  simp [bindPavementNode, hig, hb, Pavement.addBoundaryNode]

theorem bindPavementNode_boundary_close (st : WState) (p : Pos)
    (hig : st.ignoringAirport = false) (hb : st.writingPavementBoundary = true) :
    bindPavementNode st p none true =
      { st with
        airportRect := extendRect st.airportRect p
        currentPavement :=
          { boundary := st.currentPavement.boundary ++ [{ node := p, control := none }],
            holes := st.currentPavement.holes }
        writingPavementBoundary := false
        writingPavementHoles := true
        writingPavementNewHole := true } := by
  simp [bindPavementNode, hig, hb, Pavement.addBoundaryNode]

theorem bindPavementNode_holes_plain (st : WState) (p : Pos)
    (hig : st.ignoringAirport = false) (hb : st.writingPavementBoundary = false)
    (hh : st.writingPavementHoles = true) :
    bindPavementNode st p none false =
      { st with
        airportRect := extendRect st.airportRect p
        currentPavement := st.currentPavement.addHoleNode p none st.writingPavementNewHole
        writingPavementNewHole := false } := by
  simp [bindPavementNode, hig, hb, hh]

theorem bindPavementNode_holes_close (st : WState) (p : Pos)
    (hig : st.ignoringAirport = false) (hb : st.writingPavementBoundary = false)
    (hh : st.writingPavementHoles = true) :
    bindPavementNode st p none true =
      { st with
        airportRect := extendRect st.airportRect p
        currentPavement := st.currentPavement.addHoleNode p none st.writingPavementNewHole
        writingPavementNewHole := true } := by
  simp [bindPavementNode, hig, hb, hh]

theorem addHoleNode_new (pav : Pavement) (p : Pos) :
    pav.addHoleNode p none true =
      { pav with holes := [{ node := p, control := none }] :: pav.holes } := by
  simp [Pavement.addHoleNode]

theorem addHoleNode_cons (pav : Pavement) (p : Pos) (h0 : List PavNode)
    (t : List (List PavNode)) (hh : pav.holes = h0 :: t) :
    pav.addHoleNode p none false =
      { pav with holes := (h0 ++ [{ node := p, control := none }]) :: t } := by
  obtain ⟨b, hs⟩ := pav
  simp only at hh
  subst hh
  simp [Pavement.addHoleNode]

theorem finishPavement_preserves (st : WState) :
    (finishPavement st).ignoringAirport = st.ignoringAirport ∧
    (finishPavement st).writingStartLocation = st.writingStartLocation := by
  by_cases h : st.ignoringAirport = true
  · simp [finishPavement, h]
  · by_cases h2 : (st.writingPavementBoundary || st.writingPavementHoles) = true
    · simp [finishPavement, h, h2]
    · simp [finishPavement, h, h2]

theorem bindPavement_active (st : WState) (surf : Surface)
    (hig : st.ignoringAirport = false) :
    bindPavement st surf =
      { st with
        currentPavement := Pavement.empty
        writingPavementBoundary := true
        writingPavementHoles := false
        writingPavementNewHole := false
        numApron := st.numApron + 1
        apronSurface := surfaceToDb surf } := by
  simp [bindPavement, hig]

theorem write_pavementHeader_proj (geo : GeoModel) (opts : String → Bool) (st : WState)
    (surf : Surface) (hig : st.ignoringAirport = false)
    (hsl : st.writingStartLocation = false) :
    let st1 := write geo opts st (Row.pavementHeader surf)
    st1.ignoringAirport = false ∧ st1.writingStartLocation = false ∧
    st1.writingPavementBoundary = true ∧ st1.writingPavementHoles = false ∧
    st1.writingPavementNewHole = false ∧ st1.currentPavement = Pavement.empty ∧
    st1.apronSurface = surfaceToDb surf := by
  intro st1
  have h1 : st1 = bindPavement (finishPavement (finishStartupLocation st)) surf := rfl
  rw [finishStartupLocation_id st hsl] at h1
  have hig2 : (finishPavement st).ignoringAirport = false :=
    (finishPavement_preserves st).1.trans hig
  have hsl2 : (finishPavement st).writingStartLocation = false :=
    (finishPavement_preserves st).2.trans hsl
  rw [bindPavement_active _ surf hig2] at h1
  rw [h1]
  exact ⟨hig2, hsl2, rfl, rfl, rfl, rfl, rfl⟩

theorem processRows_nodes_boundary (geo : GeoModel) (opts : String → Bool) (p : Pos) :
    ∀ (k : ℕ) (st : WState), st.ignoringAirport = false → st.writingStartLocation = false →
      st.writingPavementBoundary = true →
      let st1 := processRows geo opts st (List.replicate k (Row.node p))
      st1.ignoringAirport = false ∧ st1.writingStartLocation = false ∧
      st1.writingPavementBoundary = true ∧
      st1.writingPavementHoles = st.writingPavementHoles ∧
      st1.currentPavement.boundary =
        st.currentPavement.boundary ++ List.replicate k { node := p, control := none } ∧
      st1.currentPavement.holes = st.currentPavement.holes ∧
      st1.emittedAprons = st.emittedAprons ∧ st1.apronSurface = st.apronSurface := by
  intro k
  induction k with
  | zero =>
    intro st h1 h2 h3
    exact ⟨h1, h2, h3, rfl, (List.append_nil _).symm, rfl, rfl, rfl⟩
  | succ k ih =>
    intro st h1 h2 h3
    intro st1
    have hw : write geo opts st (Row.node p) =
        { st with
          airportRect := extendRect st.airportRect p
          currentPavement :=
            { boundary := st.currentPavement.boundary ++ [{ node := p, control := none }],
              holes := st.currentPavement.holes }
          writingPavementNewHole := false } := by
      rw [write_nodeRow geo opts st p h2, bindPavementNode_boundary_plain st p h1 h3]
    have hst1 : st1 = processRows geo opts
        { st with
          airportRect := extendRect st.airportRect p
          currentPavement :=
            { boundary := st.currentPavement.boundary ++ [{ node := p, control := none }],
              holes := st.currentPavement.holes }
          writingPavementNewHole := false } (List.replicate k (Row.node p)) := by
      show processRows geo opts (write geo opts st (Row.node p))
        (List.replicate k (Row.node p)) = _
      rw [hw]
    obtain ⟨g1, g2, g3, g4, g5, g6, g7, g8⟩ :=
      ih
        { st with
          airportRect := extendRect st.airportRect p
          currentPavement :=
            { boundary := st.currentPavement.boundary ++ [{ node := p, control := none }],
              holes := st.currentPavement.holes }
          writingPavementNewHole := false } h1 h2 h3
    rw [hst1]
    refine ⟨g1, g2, g3, g4, g5.trans ?_, g6, g7, g8⟩
    show (st.currentPavement.boundary ++ [{ node := p, control := none }]) ++
        List.replicate k { node := p, control := none } = _
    rw [List.append_assoc, List.singleton_append]
    rfl

theorem processRows_nodes_holes (geo : GeoModel) (opts : String → Bool) (q : Pos) :
    ∀ (k : ℕ) (st : WState) (h0 : List PavNode) (t : List (List PavNode)),
      st.ignoringAirport = false → st.writingStartLocation = false →
      st.writingPavementBoundary = false → st.writingPavementHoles = true →
      st.writingPavementNewHole = false → st.currentPavement.holes = h0 :: t →
      let st1 := processRows geo opts st (List.replicate k (Row.node q))
      st1.ignoringAirport = false ∧ st1.writingStartLocation = false ∧
      st1.writingPavementBoundary = false ∧ st1.writingPavementHoles = true ∧
      st1.writingPavementNewHole = false ∧
      st1.currentPavement.boundary = st.currentPavement.boundary ∧
      st1.currentPavement.holes =
        (h0 ++ List.replicate k { node := q, control := none }) :: t ∧
      st1.emittedAprons = st.emittedAprons ∧ st1.apronSurface = st.apronSurface := by
  intro k
  induction k with
  | zero =>
    intro st h0 t h1 h2 h3 h4 h5 h6
    refine ⟨h1, h2, h3, h4, h5, rfl, ?_, rfl, rfl⟩
    simp only [List.replicate_zero, List.append_nil]
    exact h6
  | succ k ih =>
    intro st h0 t h1 h2 h3 h4 h5 h6
    intro st1
    have hw : write geo opts st (Row.node q) =
        { st with
          airportRect := extendRect st.airportRect q
          currentPavement :=
            { boundary := st.currentPavement.boundary,
              holes := (h0 ++ [{ node := q, control := none }]) :: t }
          writingPavementNewHole := false } := by
      rw [write_nodeRow geo opts st q h2, bindPavementNode_holes_plain st q h1 h3 h4, h5,
        addHoleNode_cons st.currentPavement q h0 t h6]
    have hst1 : st1 = processRows geo opts
        { st with
          airportRect := extendRect st.airportRect q
          currentPavement :=
            { boundary := st.currentPavement.boundary,
              holes := (h0 ++ [{ node := q, control := none }]) :: t }
          writingPavementNewHole := false } (List.replicate k (Row.node q)) := by
      show processRows geo opts (write geo opts st (Row.node q))
        (List.replicate k (Row.node q)) = _
      rw [hw]
    obtain ⟨g1, g2, g3, g4, g5, g6, g7, g8, g9⟩ :=
      ih
        { st with
          airportRect := extendRect st.airportRect q
          currentPavement :=
            { boundary := st.currentPavement.boundary,
              holes := (h0 ++ [{ node := q, control := none }]) :: t }
          writingPavementNewHole := false } (h0 ++ [{ node := q, control := none }]) t
        h1 h2 h3 h4 rfl rfl
    rw [hst1]
    refine ⟨g1, g2, g3, g4, g5, g6, g7.trans ?_, g8, g9⟩
    rw [List.append_assoc, List.singleton_append]
    rfl

theorem boundary_segment (geo : GeoModel) (opts : String → Bool) (p : Pos) (k : ℕ)
    (st : WState) (hig : st.ignoringAirport = false) (hsl : st.writingStartLocation = false)
    (hb : st.writingPavementBoundary = true) :
    let st1 := processRows geo opts st (List.replicate k (Row.node p) ++ [Row.nodeClose p])
    st1.ignoringAirport = false ∧ st1.writingStartLocation = false ∧
    st1.writingPavementBoundary = false ∧ st1.writingPavementHoles = true ∧
    st1.writingPavementNewHole = true ∧
    st1.currentPavement.boundary =
      st.currentPavement.boundary ++ List.replicate (k + 1) { node := p, control := none } ∧
    st1.currentPavement.holes = st.currentPavement.holes ∧
    st1.emittedAprons = st.emittedAprons ∧ st1.apronSurface = st.apronSurface := by
  intro st1
  obtain ⟨g1, g2, g3, g4, g5, g6, g7, g8⟩ := processRows_nodes_boundary geo opts p k st hig hsl hb
  have hst1 : st1 = write geo opts
      (processRows geo opts st (List.replicate k (Row.node p))) (Row.nodeClose p) := by
    rw [show (st1 : WState) =
        processRows geo opts st (List.replicate k (Row.node p) ++ [Row.nodeClose p]) from rfl,
      processRows_append]
    rfl
  rw [hst1, write_nodeCloseRow _ _ _ _ g2, bindPavementNode_boundary_close _ _ g1 g3]
  refine ⟨g1, g2, rfl, rfl, rfl, ?_, g6, g7, g8⟩
  show (processRows geo opts st (List.replicate k (Row.node p))).currentPavement.boundary ++
      [{ node := p, control := none }] = _
  rw [g5, List.append_assoc, ← List.replicate_succ']

theorem holes_tail_segment (geo : GeoModel) (opts : String → Bool) (q : Pos) (k : ℕ)
    (st : WState) (h0 : List PavNode) (t : List (List PavNode))
    (hig : st.ignoringAirport = false) (hsl : st.writingStartLocation = false)
    (hb : st.writingPavementBoundary = false) (hh : st.writingPavementHoles = true)
    (hnew : st.writingPavementNewHole = false)
    (hholes : st.currentPavement.holes = h0 :: t) :
    let st1 := processRows geo opts st (List.replicate k (Row.node q) ++ [Row.nodeClose q])
    st1.ignoringAirport = false ∧ st1.writingStartLocation = false ∧
    st1.writingPavementBoundary = false ∧ st1.writingPavementHoles = true ∧
    st1.writingPavementNewHole = true ∧
    st1.currentPavement.boundary = st.currentPavement.boundary ∧
    st1.currentPavement.holes =
      (h0 ++ List.replicate (k + 1) { node := q, control := none }) :: t ∧
    st1.emittedAprons = st.emittedAprons ∧ st1.apronSurface = st.apronSurface := by
  intro st1
  obtain ⟨g1, g2, g3, g4, g5, g6, g7, g8, g9⟩ :=
    processRows_nodes_holes geo opts q k st h0 t hig hsl hb hh hnew hholes
  have hst1 : st1 = write geo opts
      (processRows geo opts st (List.replicate k (Row.node q))) (Row.nodeClose q) := by
    rw [show (st1 : WState) =
        processRows geo opts st (List.replicate k (Row.node q) ++ [Row.nodeClose q]) from rfl,
      processRows_append]
    rfl
  rw [hst1, write_nodeCloseRow _ _ _ _ g2, bindPavementNode_holes_close _ _ g1 g3 g4, g5,
    addHoleNode_cons _ q _ t g7]
  refine ⟨g1, g2, g3, g4, rfl, g6, ?_, g8, g9⟩
  show ((h0 ++ List.replicate k { node := q, control := none }) ++
      [{ node := q, control := none }]) :: t = _
  rw [List.append_assoc, ← List.replicate_succ']

theorem holes_segment (geo : GeoModel) (opts : String → Bool) (q : Pos) (k : ℕ)
    (st : WState) (hig : st.ignoringAirport = false) (hsl : st.writingStartLocation = false)
    (hb : st.writingPavementBoundary = false) (hh : st.writingPavementHoles = true)
    (hnew : st.writingPavementNewHole = true) :
    let st1 := processRows geo opts st (List.replicate k (Row.node q) ++ [Row.nodeClose q])
    st1.ignoringAirport = false ∧ st1.writingStartLocation = false ∧
    st1.writingPavementBoundary = false ∧ st1.writingPavementHoles = true ∧
    st1.writingPavementNewHole = true ∧
    st1.currentPavement.boundary = st.currentPavement.boundary ∧
    st1.currentPavement.holes =
      List.replicate (k + 1) { node := q, control := none } :: st.currentPavement.holes ∧
    st1.emittedAprons = st.emittedAprons ∧ st1.apronSurface = st.apronSurface := by
  cases k with
  | zero =>
    intro st1
    have hst1 : st1 = write geo opts st (Row.nodeClose q) := rfl
    rw [hst1, write_nodeCloseRow _ _ _ _ hsl, bindPavementNode_holes_close _ _ hig hb hh, hnew,
      addHoleNode_new]
    exact ⟨hig, hsl, hb, hh, rfl, rfl, rfl, rfl, rfl⟩
  | succ k =>
    intro st1
    have hw1 : write geo opts st (Row.node q) =
        { st with
          airportRect := extendRect st.airportRect q
          currentPavement :=
            { boundary := st.currentPavement.boundary,
              holes := [{ node := q, control := none }] :: st.currentPavement.holes }
          writingPavementNewHole := false } := by
      rw [write_nodeRow _ _ _ _ hsl, bindPavementNode_holes_plain _ _ hig hb hh, hnew,
        addHoleNode_new]
    have hst1 : st1 = processRows geo opts
        { st with
          airportRect := extendRect st.airportRect q
          currentPavement :=
            { boundary := st.currentPavement.boundary,
              holes := [{ node := q, control := none }] :: st.currentPavement.holes }
          writingPavementNewHole := false }
        (List.replicate k (Row.node q) ++ [Row.nodeClose q]) := by
      show processRows geo opts (write geo opts st (Row.node q))
        (List.replicate k (Row.node q) ++ [Row.nodeClose q]) = _
      rw [hw1]
    obtain ⟨g1, g2, g3, g4, g5, g6, g7, g8, g9⟩ :=
      holes_tail_segment geo opts q k
        { st with
          airportRect := extendRect st.airportRect q
          currentPavement :=
            { boundary := st.currentPavement.boundary,
              holes := [{ node := q, control := none }] :: st.currentPavement.holes }
          writingPavementNewHole := false }
        [{ node := q, control := none }] st.currentPavement.holes hig hsl hb hh rfl rfl
    rw [hst1]
    refine ⟨g1, g2, g3, g4, g5, g6, g7.trans ?_, g8, g9⟩
    rw [List.singleton_append, ← List.replicate_succ]

/-- Claim C4: feeding the assembler (started fresh by a pavement header) N
boundary nodes whose last carries a closing row code, then M hole nodes
whose last carries a closing row code, and flushing, produces a polygon
with exactly one boundary ring of N nodes and exactly one hole ring of M
nodes. -/
theorem c4_polygon_rings (geo : GeoModel) (opts : String → Bool) (st : WState)
    (hig : st.ignoringAirport = false) (hsl : st.writingStartLocation = false)
    (N M : ℕ) (hN : 1 ≤ N) (hM : 1 ≤ M) (p q : Pos) (surf : Surface) :
    let st1 := processRows geo opts st
      (Row.pavementHeader surf ::
        ((List.replicate (N - 1) (Row.node p) ++ [Row.nodeClose p]) ++
         (List.replicate (M - 1) (Row.node q) ++ [Row.nodeClose q])))
    st1.currentPavement =
      { boundary := List.replicate N { node := p, control := none },
        holes := [List.replicate M { node := q, control := none }] } ∧
    (finishPavement st1).emittedAprons =
      st1.emittedAprons ++ [{ surface := surfaceToDb surf, geometry := st1.currentPavement }] := by
  obtain ⟨N0, rfl⟩ : ∃ n, N = n + 1 := ⟨N - 1, (Nat.succ_pred_eq_of_pos hN).symm⟩
  obtain ⟨M0, rfl⟩ : ∃ m, M = m + 1 := ⟨M - 1, (Nat.succ_pred_eq_of_pos hM).symm⟩
  intro st1
  obtain ⟨a1, a2, a3, a4, a5, a6, a7⟩ := write_pavementHeader_proj geo opts st surf hig hsl
  have hbnd0 : (write geo opts st (Row.pavementHeader surf)).currentPavement.boundary = [] := by
    rw [a6]; rfl
  have hhol0 : (write geo opts st (Row.pavementHeader surf)).currentPavement.holes = [] := by
    rw [a6]; rfl
  have hsplit : st1 = processRows geo opts
      (processRows geo opts (write geo opts st (Row.pavementHeader surf))
        (List.replicate N0 (Row.node p) ++ [Row.nodeClose p]))
      (List.replicate M0 (Row.node q) ++ [Row.nodeClose q]) := by
    rw [show (st1 : WState) = processRows geo opts
        (write geo opts st (Row.pavementHeader surf))
        ((List.replicate N0 (Row.node p) ++ [Row.nodeClose p]) ++
         (List.replicate M0 (Row.node q) ++ [Row.nodeClose q])) from rfl,
      processRows_append]
  obtain ⟨b1, b2, b3, b4, b5, b6, b7, b8, b9⟩ := boundary_segment geo opts p N0 _ a1 a2 a3
  obtain ⟨c1, c2, c3, c4, c5, c6, c7, c8, c9⟩ := holes_segment geo opts q M0 _ b1 b2 b3 b4 b5
  rw [hsplit]
  constructor
  · rw [show (processRows geo opts
        (processRows geo opts (write geo opts st (Row.pavementHeader surf))
          (List.replicate N0 (Row.node p) ++ [Row.nodeClose p]))
        (List.replicate M0 (Row.node q) ++ [Row.nodeClose q])).currentPavement =
      ({ boundary := (processRows geo opts
          (processRows geo opts (write geo opts st (Row.pavementHeader surf))
            (List.replicate N0 (Row.node p) ++ [Row.nodeClose p]))
          (List.replicate M0 (Row.node q) ++ [Row.nodeClose q])).currentPavement.boundary,
         holes := (processRows geo opts
          (processRows geo opts (write geo opts st (Row.pavementHeader surf))
            (List.replicate N0 (Row.node p) ++ [Row.nodeClose p]))
          (List.replicate M0 (Row.node q) ++ [Row.nodeClose q])).currentPavement.holes } :
        Pavement) from rfl]
    rw [c6, c7, b6, b7, hbnd0, hhol0, List.nil_append]
  · rw [finishPavement_emit _ c1 (Or.inr c4)]
    rw [c9, b9, a7]

/-- Claim C4 witness: the polygon scenario at N = 3 boundary and M = 2
hole nodes. -/
theorem c4_polygon_rings_witness :
    initialState.ignoringAirport = false ∧ initialState.writingStartLocation = false ∧
    1 ≤ 3 ∧ 1 ≤ 2 ∧
    (let st1 := processRows dummyGeo optsAll initialState
      (Row.pavementHeader Surface.asphalt ::
        ((List.replicate (3 - 1) (Row.node { lonx := 1, laty := 1 }) ++
          [Row.nodeClose { lonx := 1, laty := 1 }]) ++
         (List.replicate (2 - 1) (Row.node { lonx := 2, laty := 2 }) ++
          [Row.nodeClose { lonx := 2, laty := 2 }])))
     st1.currentPavement =
       { boundary := List.replicate 3 { node := { lonx := 1, laty := 1 }, control := none },
         holes := [List.replicate 2 { node := { lonx := 2, laty := 2 }, control := none }] } ∧
     (finishPavement st1).emittedAprons =
       st1.emittedAprons ++
         [{ surface := surfaceToDb Surface.asphalt, geometry := st1.currentPavement }]) :=
  ⟨rfl, rfl, by decide, by decide,
    c4_polygon_rings dummyGeo optsAll initialState rfl rfl 3 2 (by decide) (by decide)
      { lonx := 1, laty := 1 } { lonx := 2, laty := 2 } Surface.asphalt⟩

/-! ### Claim C1 -/

/-- Claim C1 evaluation at the failing input: a startup location of type
"gate" (name without fuel heuristics) followed by a metadata row with
width code "D" flushes a parking record with type `""` and radius 80 —
not type "GM" as claimed — because `writeStartupLocation` re-binds the
type to the empty string after binding "G" (the missing `else` before the
source's "Need at least an empty string bound" bind). -/
theorem c1_gate_widthD_flushes_empty_type :
    (finishStartupLocation
        (processRows dummyGeo optsAll initialState
          [Row.airportHeader "XELD" 100 "Eldwood",
           Row.airportLocation { lonx := 8, laty := 50 } 90 "gate" "Gate A1",
           Row.rampStartMetadata "D" "" none])).emittedParkings.map
      (fun p => (p.type, p.radius)) = [("", 80)] := by
  decide

end Xp
